import Mathlib

/-!
Verification of the raffle-lahaye order-ingestion and ticket-ID-assignment
pipeline (src/parse_jimdo.py, src/sql_client.py, src/app.py).

Shallow embedding conventions:
* A spreadsheet / CSV file is a rectangular table, modelled as a list of rows,
  each row a list of cell strings (pandas cells rendered through str()).
* Dates are modelled as already-normalized ISO timestamp strings
  (format %Y-%m-%d %H:%M:%S), on which pandas to_datetime followed by strftime
  is the identity and on which chronological order coincides with
  lexicographic string order.
* A missing cell / a None value is an Option.none; the Python str() view of
  None is the literal string "None" (pyStr below).
* The database table is a list of Row values; every mutating statement of
  sql_client.py becomes a pure function on that list.  psycopg2 errors are
  Strings (their messages); a uniqueness violation carries the standard
  Postgres message, which contains the text matched by the except-clause of
  insert_tickets.  Environmental (connectivity) errors are injected through
  an Option String fault per attempted statement.
-/

namespace Raffle

/-- Python str.lower restricted to ASCII letters, as applied cell-wise by
parse_file before schema detection. -/
def lowerStr (s : String) : String := String.mk (s.data.map Char.toLower)

/-- Python str.strip: drop leading and trailing whitespace. -/
def pyStrip (s : String) : String :=
  String.mk
    (((s.data.dropWhile Char.isWhitespace).reverse.dropWhile
      Char.isWhitespace).reverse)

/-- Python str(x) for an optional string value: None prints as "None". -/
def pyStr : Option String → String
  | some s => s
  | none => "None"

/-- Does the first list occur at the head of the second list? -/
def startsWithL : List Char → List Char → Bool
  | [], _ => true
  | _ :: _, [] => false
  | a :: as, b :: bs => a == b && startsWithL as bs

/-- Occurrence of the first list as a contiguous segment of the second list:
the Python substring test needle in haystack. -/
def containsL (needle : List Char) : List Char → Bool
  | [] => startsWithL needle []
  | b :: bs => startsWithL needle (b :: bs) || containsL needle bs

/-- Python needle in haystack over strings. -/
def substrB (needle haystack : String) : Bool :=
  containsL needle.data haystack.data

/-- Lexicographic comparison of char lists by code point. -/
def listLeB : List Char → List Char → Bool
  | [], _ => true
  | _ :: _, [] => false
  | a :: as, b :: bs =>
    if a.val < b.val then true
    else if b.val < a.val then false
    else listLeB as bs

/-- Order on ISO-normalized timestamp strings: chronological order is
lexicographic order for this fixed-width format.  Models the pandas
comparison date >= min_date of parse_dataframe. -/
def dateLeB (a b : String) : Bool := listLeB a.data b.data

/-- The two recognized source dialects of JimdoOrderParser. -/
inductive FileType
  | type1
  | type2
deriving DecidableEq

/-- Expected lower-cased column-name substrings for the verbose dialect
(parse_file, list type1_columns). -/
def type1_columns : List String :=
  ["article", "date de commande", "nom pour facturation",
   "prénom pour facturation", "email pour facturation"]

/-- Expected lower-cased column-name substrings for the terse dialect
(parse_file, list type2_columns). -/
def type2_columns : List String :=
  ["page", "date", "nom", "e-mail", "message", "company"]

/-- Python " ".join. -/
def joinWithSpace : List String → String
  | [] => ""
  | [s] => s
  | s :: rest => s ++ " " ++ joinWithSpace rest

/-- One scanned row rendered for detection: each cell through str().lower(),
joined with single spaces (parse_file lines 88-89). -/
def rowText (cells : List String) : String :=
  joinWithSpace (cells.map lowerStr)

/-- Number of expected column names occurring as substrings of the row text
(parse_file lines 92-93). -/
def countMatches (cols : List String) (text : String) : Nat :=
  (cols.filter (fun c => substrB (lowerStr c) text)).length

/-- The body of the detection loop of parse_file (lines 87-103): the row at
scan position i selects type1 when at least 4 of its 5 names occur, else
type2 when at least 3 of its 6 names occur, else the scan moves on. -/
def detectHeaderAux : Nat → List (List String) → Option (Nat × FileType)
  | _, [] => none
  | i, row :: rest =>
    if 4 ≤ countMatches type1_columns (rowText row) then
      some (i, FileType.type1)
    else if 3 ≤ countMatches type2_columns (rowText row) then
      some (i, FileType.type2)
    else detectHeaderAux (i + 1) rest

/-- Header detection over the first min(10, len) scanned rows
(parse_file: for i in range(min(10, len(df)))). -/
def detectHeader (rows : List (List String)) : Option (Nat × FileType) :=
  detectHeaderAux 0 (rows.take 10)

/-- Result of one pandas read of the source table: the optional column-name
row (none for read_csv with header=None) and the data rows. -/
structure TableRead where
  headerRow : Option (List String)
  dataRows : List (List String)
deriving DecidableEq

/-- pandas read with skiprows=list(range(skip)): the first skip file rows are
dropped; with a header (read_excel default) the next row becomes the
column-name row, with header=None (read_csv as used here) no row does. -/
def read_table (hasHeader : Bool) (skip : Nat) (file : List (List String)) :
    TableRead :=
  let remaining := file.drop skip
  if hasHeader then
    { headerRow := remaining.head?, dataRows := remaining.tail }
  else
    { headerRow := none, dataRows := remaining }

/-- The read/detect/re-read plumbing of parse_file (lines 39-137): the first
read (header row 0 for Excel, no header for CSV), detection over its data
rows, and on success the re-read with skiprows=list(range(i + 1)); on
detection failure the first read is kept and the dialect defaults to type1. -/
def parse_file_table (isCsv : Bool) (file : List (List String)) :
    TableRead × FileType :=
  let first := read_table (!isCsv) 0 file
  match detectHeader first.dataRows with
  | some (i, ft) => (read_table (!isCsv) (i + 1) file, ft)
  | none => (first, FileType.type1)

/-- A canonical-field row produced by _create_unified_dataframe: the fields of
column_mappings, each populated from the mapped source column or None. -/
structure UnifiedRow where
  article : Option String
  date : Option String
  last_name : Option String
  first_name : Option String
  email : Option String
  declinaison : Option String
  firm : Option String
deriving DecidableEq

/-- The positionally assigned column names of _create_unified_dataframe for
type2: df.columns = these six names (plus Extra padding). -/
def type2_assigned_columns : List String :=
  ["Date", "Page", "Nom", "E-mail", "Message", "Company"]

/-- _create_unified_dataframe for one data row.  The source assigns the fixed
column-name list positionally and then copies row[source_col] for each
mapped field, so each canonical field is the cell at the index of its mapped
source column: for type1 the 34-name list puts Date de commande at 2,
Article at 4, Déclinaison at 5, Entreprise pour facturation at 11, Nom pour
facturation at 13, Prénom pour facturation at 14, Email pour facturation at
15; for type2 the six names Date, Page, Nom, E-mail, Message, Company sit at
0-5 and the mapping reads article from Page, date from Date, last_name from
Nom, first_name from nothing (mapped to None), email from Message,
declinaison from Company and firm from E-mail. -/
def create_unified_row (ft : FileType) (cells : List String) : UnifiedRow :=
  match ft with
  | FileType.type1 =>
    { article := cells[4]?, date := cells[2]?, last_name := cells[13]?,
      first_name := cells[14]?, email := cells[15]?, declinaison := cells[5]?,
      firm := cells[11]? }
  | FileType.type2 =>
    { article := cells[1]?, date := cells[0]?, last_name := cells[2]?,
      first_name := none, email := cells[4]?, declinaison := cells[5]?,
      firm := cells[3]? }

/-- The first maximal run of decimal digits of a char list, if any: the
leftmost match of the pattern of one-or-more digits. -/
def firstDigitRun : List Char → Option (List Char)
  | [] => none
  | c :: cs =>
    if c.isDigit then some (c :: cs.takeWhile Char.isDigit)
    else firstDigitRun cs

/-- Python int() of a digit run. -/
def digitsToNat (l : List Char) : Nat :=
  l.foldl (fun a c => a * 10 + (c.toNat - 48)) 0

/-- re.search for one-or-more digits followed by int() of the captured group,
as used on the declinaison text by parse_dataframe (lines 232-236). -/
def searchDigits (s : String) : Option Nat :=
  (firstDigitRun s.data).map digitsToNat

/-- One stored order: the columns of the tickets table (sql_client.py
create_tickets_table), with id the assigned starting ticket number. -/
structure Row where
  id : Option Int
  date : String
  firm : Option String
  name : String
  email : String
  num_tickets : Int
  achat : Option String
deriving DecidableEq

/-- The article label relevant for the dialect (parse_dataframe lines
215-218). -/
def articleName (ft : FileType) (a1 a2 : String) : String :=
  match ft with
  | FileType.type1 => a1
  | FileType.type2 => a2

/-- The per-row body of the emission loop of parse_dataframe (lines 231-260):
search the declinaison text for a digit run (no run: the row is skipped);
build the name from the stripped name parts (type1 joins last and first
name, type2 uses the single combined column); normalize the date
(to_datetime plus strftime - on a missing date value strftime raises, the
Except.error case); empty stripped firm becomes None; the row is emitted
with id None and achat None.  unified_name is the name-construction block
(lines 239-246): type1 joins the stripped last and first name with one
space and strips the result, type2 uses the single stripped combined
column. -/
def unified_name (ft : FileType) (r : UnifiedRow) : String :=
  match ft with
  | FileType.type1 =>
    pyStrip (pyStrip (pyStr r.last_name) ++ " " ++ pyStrip (pyStr r.first_name))
  | FileType.type2 => pyStrip (pyStr r.last_name)

def parse_row (ft : FileType) (r : UnifiedRow) : Except String (Option Row) :=
  match searchDigits (pyStr r.declinaison) with
  | none => Except.ok none
  | some n =>
    match r.date with
    | none => Except.error "NaTType does not support strftime"
    | some d =>
      Except.ok (some
        { id := none, date := d,
          firm :=
            if pyStrip (pyStr r.firm) = "" then none
            else some (pyStrip (pyStr r.firm)),
          name := unified_name ft r,
          email := pyStrip (pyStr r.email),
          num_tickets := (n : Int), achat := none })

/-- The emission loop of parse_dataframe over the filtered rows: skipped rows
contribute nothing, an error aborts the parse, emitted rows are collected in
order. -/
def parse_rows_go (ft : FileType) : List UnifiedRow → Except String (List Row)
  | [] => Except.ok []
  | r :: rest =>
    match parse_row ft r with
    | Except.error e => Except.error e
    | Except.ok none => parse_rows_go ft rest
    | Except.ok (some row) =>
      match parse_rows_go ft rest with
      | Except.error e => Except.error e
      | Except.ok rows => Except.ok (row :: rows)

/-- parse_dataframe (lines 211-262): filter to the rows whose article equals
the configured label for the dialect, optionally filter to dates at or after
min_date (a missing date never satisfies the comparison), then run the
emission loop. -/
def parse_dataframe (ft : FileType) (a1 a2 : String) (minDate : Option String)
    (urows : List UnifiedRow) : Except String (List Row) :=
  let afiltered := urows.filter
    (fun r => r.article == some (articleName ft a1 a2))
  let dfiltered :=
    match minDate with
    | none => afiltered
    | some md => afiltered.filter
        (fun r => match r.date with
          | some d => dateLeB md d
          | none => false)
  parse_rows_go ft dfiltered

/-- parse_file end to end: locate the header and the dialect, build the
unified rows, and parse them. -/
def parse_file (isCsv : Bool) (a1 a2 : String) (minDate : Option String)
    (file : List (List String)) : Except String (List Row) :=
  let tft := parse_file_table isCsv file
  parse_dataframe tft.2 a1 a2 minDate
    (tft.1.dataRows.map (create_unified_row tft.2))

/-- Is a row with this natural key (name, date) already stored?  The
UNIQUE(name, date) constraint of the tickets table rejects an insert exactly
when this holds. -/
def hasKey (s : List Row) (name date : String) : Bool :=
  s.any (fun r => r.name == name && r.date == date)

/-- The Postgres error message of a violated unique constraint. -/
def dupKeyMsg : String := "duplicate key value violates unique constraint"

/-- The except-clause test of insert_tickets (line 148): the error is
swallowed when the text duplicate key occurs in the lower-cased message. -/
def isDupMsg (e : String) : Bool := substrB "duplicate key" (lowerStr e)

/-- One execution of the INSERT statement of insert_tickets: an injected
environmental fault raises its message; otherwise the statement raises the
duplicate-key message when the natural key is already present and appends
the row when it is not (autocommit, single statement). -/
def execInsert (fault : Option String) (s : List Row) (r : Row) :
    Except String (List Row) :=
  match fault with
  | some msg => Except.error msg
  | none =>
    if hasKey s r.name r.date then Except.error dupKeyMsg
    else Except.ok (s ++ [r])

/-- insert_tickets (lines 128-150): each row is attempted individually; a
raised error whose message carries duplicate key is ignored and the loop
continues with the count unchanged; any other raised error propagates; a
successful insert increments the returned count. -/
def insert_tickets (s : List Row) :
    List (Row × Option String) → Except String (List Row × Nat)
  | [] => Except.ok (s, 0)
  | (r, f) :: rest =>
    match execInsert f s r with
    | Except.ok s' =>
      match insert_tickets s' rest with
      | Except.ok (s'', n) => Except.ok (s'', n + 1)
      | Except.error e => Except.error e
    | Except.error e =>
      if isDupMsg e then insert_tickets s rest else Except.error e

/-- The rows of a fault-free insert_tickets run that are actually newly
persisted: a row is kept exactly when its natural key is absent from the
store at its attempt. -/
def newlyInserted : List Row → List Row → List Row
  | _, [] => []
  | s, r :: rest =>
    if hasKey s r.name r.date then newlyInserted s rest
    else r :: newlyInserted (s ++ [r]) rest

/-- insert_single_order (lines 152-174): one INSERT, True on success, False
on any raised error - the state-derived failure is the unique-key
violation. -/
def insert_single_order (s : List Row) (r : Row) : List Row × Bool :=
  if hasKey s r.name r.date then (s, false) else (s ++ [r], true)

/-- get_max_id_and_span (lines 196-207): among the rows whose id is not null,
the id and num_tickets of the row with the maximal id (ORDER BY id DESC
LIMIT 1; on ties the statement may return any tied row - this embedding
keeps the first one encountered), or (None, None) when no row qualifies.
maxStep is the one-row step of that scan. -/
def maxStep (acc : Option (Int × Int)) (r : Row) : Option (Int × Int) :=
  match r.id with
  | none => acc
  | some i =>
    match acc with
    | none => some (i, r.num_tickets)
    | some (m, sp) => if m < i then some (i, r.num_tickets) else some (m, sp)

/-- The scan realizing get_max_id_and_span as a fold with maxStep. -/
def get_max_id_and_span (s : List Row) : Option (Int × Int) :=
  s.foldl maxStep none

/-- Python x or d for integers: d when x is zero, x otherwise. -/
def pyOrInt (x d : Int) : Int := if x = 0 then d else x

/-- The start-id computation of the send-email handler (app.py lines
424-430): the configured starting id when no row has an id, else
max_id + (max_span or 0). -/
def compute_start_id (startingId : Int) (s : List Row) : Int :=
  match get_max_id_and_span s with
  | none => startingId
  | some (m, sp) => m + pyOrInt sp 0

/-- assign_id_for_row (lines 209-214): UPDATE tickets SET id for every row
matching the natural key. -/
def assign_id_for_row (s : List Row) (date name : String) (newId : Int) :
    List Row :=
  s.map (fun r =>
    if r.name == name && r.date == date then { r with id := some newId } else r)

/-- delete_order_by_name_date (lines 252-260): DELETE FROM tickets for every
row matching the natural key, with no condition on id. -/
def delete_order_by_name_date (s : List Row) (date name : String) : List Row :=
  s.filter (fun r => !(r.name == name && r.date == date))

/-- The send-and-assign sequence of the send-email handler (app.py lines
420-451): compute the start id from the store, call the notifier, and only
when that call returns successfully assign the id to the row; when the
notifier raises, the except-clause leaves the store untouched and no id is
assigned. -/
def send_and_assign (emailOk : Bool) (startingId : Int) (s : List Row)
    (date name : String) : List Row × Option Int :=
  let startId := compute_start_id startingId s
  if emailOk then (assign_id_for_row s date name startId, some startId)
  else (s, none)

/-- The add-order dialog (app.py lines 229-301): empty name or email is
rejected before any insert; otherwise the order is built with id None, the
stripped inputs, empty stripped firm and achat as None, and the widget-bound
ticket number. -/
def add_order_manual (dateStr name email firm achat : String)
    (numTickets : Int) : Option Row :=
  if name = "" || email = "" then none
  else some
    { id := none, date := dateStr, name := pyStrip name,
      email := pyStrip email,
      firm := if pyStrip firm = "" then none else some (pyStrip firm),
      num_tickets := numTickets,
      achat := if pyStrip achat = "" then none else some (pyStrip achat) }

/-- ingest_uploaded_file (app.py lines 40-54): parse the upload and insert
the parsed rows (fault-free database environment). -/
def ingest_uploaded_file (isCsv : Bool) (a1 a2 : String)
    (minDate : Option String) (s : List Row) (file : List (List String)) :
    Except String (List Row × Nat) :=
  match parse_file isCsv a1 a2 minDate file with
  | Except.error e => Except.error e
  | Except.ok rows => insert_tickets s (rows.map (fun r => (r, none)))

/-! Concrete data used by the scenario conjuncts, the counterexamples and
the witnesses. -/

/-- Scenario order A: pending, three tickets. -/
def orderA : Row :=
  { id := none, date := "2025-09-01 00:00:00", firm := none, name := "Ames",
    email := "a@x.org", num_tickets := 3, achat := none }

/-- Scenario order A after the first allocation assigned id 1. -/
def orderA1 : Row := { orderA with id := some 1 }

/-- Scenario order B: pending, two tickets. -/
def orderB : Row :=
  { id := none, date := "2025-09-03 00:00:00", firm := none, name := "Bell",
    email := "b@x.org", num_tickets := 2, achat := none }

/-- A stored order that already holds an assigned id. -/
def maxRow : Row :=
  { id := some 10, date := "2025-09-04 00:00:00", firm := none, name := "Moss",
    email := "m@x.org", num_tickets := 5, achat := none }

/-- A stored order with an assigned id, target of a delete. -/
def assignedVictim : Row :=
  { id := some 5, date := "2025-09-01 00:00:00", firm := none, name := "Vale",
    email := "v@x.org", num_tickets := 2, achat := none }

/-- A two-row CSV source in the terse dialect: its header row followed by one
order line. -/
def csvFile2 : List (List String) :=
  [["date", "page", "nom", "e-mail", "message", "company"],
   ["2025-09-02 10:00:00", "Tikkie tombola only!", "Alice", "FirmX", "a@b.c",
    "Pack de 2"]]

/-- The order parsed from the data line of csvFile2. -/
def aliceRow : Row :=
  { id := none, date := "2025-09-02 10:00:00", firm := some "FirmX",
    name := "Alice", email := "a@b.c", num_tickets := 2, achat := none }

/-- A CSV source in which no row matches either dialect. -/
def csvNoHeader : List (List String) := [["foo", "bar"], ["x", "y"]]

/-- An Excel source with one junk row above the verbose-dialect header row
and one data row below it. -/
def xlsxFile1 : List (List String) :=
  [["junk1", "junk2", "junk3", "junk4", "junk5"],
   ["article", "date de commande", "nom pour facturation",
    "prénom pour facturation", "email pour facturation"],
   ["Billet", "2025-09-02 10:00:00", "Doe", "Jane", "j@d.com"]]

/-- A canonical row whose variant text has no digits. -/
def noDigitRow : UnifiedRow :=
  { article := some "X", date := some "2025-09-02 10:00:00",
    last_name := some "Lane", first_name := some "Fay", email := some "l@x.org",
    declinaison := some "Tombola pack", firm := some "" }

/-- A canonical row whose variant text starts its first digit run with the
value zero. -/
def uZero : UnifiedRow :=
  { article := some "X", date := some "2025-09-02 10:00:00",
    last_name := some "Zed", first_name := some "", email := some "z@x.org",
    declinaison := some "0 billets", firm := some "" }

/-- The order parsed from uZero: zero tickets. -/
def zeroRow : Row :=
  { id := none, date := "2025-09-02 10:00:00", firm := none, name := "Zed",
    email := "z@x.org", num_tickets := 0, achat := none }

/-- The order built by the staff form from plain one-ticket inputs. -/
def johnRow : Row :=
  { id := none, date := "2025-09-01 00:00:00", firm := none, name := "John",
    email := "j@x.org", num_tickets := 1, achat := none }

/-- A canonical row whose variant text is the pack-of-twelve example. -/
def uTwelve : UnifiedRow :=
  { article := some "X", date := some "2025-09-02 10:00:00",
    last_name := some "Till", first_name := some "Eve", email := some "t@x.org",
    declinaison := some "Pack de 12 billets", firm := some "" }

/-- The order parsed from uTwelve: twelve tickets. -/
def twelveRow : Row :=
  { id := none, date := "2025-09-02 10:00:00", firm := none,
    name := "Till Eve", email := "t@x.org", num_tickets := 12, achat := none }

/-! Lemmas about the max-id scan. -/

theorem foldl_maxStep_of_all_none :
    ∀ (s : List Row) (acc : Option (Int × Int)),
    (∀ r ∈ s, r.id = none) → s.foldl maxStep acc = acc := by
  intro s
  induction s with
  | nil => intro acc _; rfl
  | cons r rest ih =>
    intro acc h
    have hr : r.id = none := h r (List.mem_cons_self r rest)
    have hstep : maxStep acc r = acc := by
      simp [maxStep, hr]
    rw [List.foldl_cons, hstep]
    exact ih acc (fun r' hr' => h r' (List.mem_cons_of_mem r hr'))

theorem maxStep_le (acc : Option (Int × Int)) (r : Row) (m' sp' : Int)
    (h : maxStep acc r = some (m', sp')) :
    (∀ m0 sp0, acc = some (m0, sp0) → m0 ≤ m')
    ∧ (∀ i, r.id = some i → i ≤ m') := by
  unfold maxStep at h
  split at h
  case _ hid =>
    constructor
    · intro m0 sp0 h0
      rw [h0] at h
      cases h
      exact le_refl _
    · intro i hi
      rw [hid] at hi
      exact Option.noConfusion hi
  case _ i hid =>
    split at h
    · cases h
      constructor
      · intro m0 sp0 h0
        exact Option.noConfusion h0
      · intro j hj
        rw [hid] at hj
        cases hj
        exact le_refl _
    · split at h
      · cases h
        constructor
        · intro m1 sp1 h1
          cases h1
          next hlt => exact le_of_lt hlt
        · intro j hj
          rw [hid] at hj
          cases hj
          exact le_refl _
      · cases h
        constructor
        · intro m1 sp1 h1
          cases h1
          exact le_refl _
        · intro j hj
          rw [hid] at hj
          cases hj
          next hlt => exact le_of_not_lt hlt

theorem maxStep_none_id (acc : Option (Int × Int)) (r : Row)
    (hid : r.id = none) : maxStep acc r = acc := by
  unfold maxStep
  rw [hid]

theorem maxStep_isSome_of_id (acc : Option (Int × Int)) (r : Row) (i : Int)
    (hid : r.id = some i) : ∃ m' sp', maxStep acc r = some (m', sp') := by
  unfold maxStep
  rw [hid]
  cases acc with
  | none => exact ⟨i, r.num_tickets, rfl⟩
  | some p =>
    obtain ⟨m0, sp0⟩ := p
    show ∃ m' sp',
      (if m0 < i then some (i, r.num_tickets) else some (m0, sp0))
        = some (m', sp')
    by_cases hlt : m0 < i
    · exact ⟨i, r.num_tickets, by rw [if_pos hlt]⟩
    · exact ⟨m0, sp0, by rw [if_neg hlt]⟩

theorem maxStep_some_inv (acc : Option (Int × Int)) (r : Row) (m sp : Int)
    (h : maxStep acc r = some (m, sp)) :
    acc = some (m, sp) ∨ (r.id = some m ∧ r.num_tickets = sp) := by
  unfold maxStep at h
  split at h
  case _ hid => exact Or.inl h
  case _ i hid =>
    split at h
    · cases h
      exact Or.inr ⟨hid, rfl⟩
    · split at h
      · cases h
        exact Or.inr ⟨hid, rfl⟩
      · cases h
        exact Or.inl rfl

theorem foldl_maxStep_max :
    ∀ (s : List Row) (acc : Option (Int × Int)) (m sp : Int),
    s.foldl maxStep acc = some (m, sp) →
    (∀ r ∈ s, ∀ i, r.id = some i → i ≤ m)
    ∧ (∀ m0 sp0, acc = some (m0, sp0) → m0 ≤ m) := by
  intro s
  induction s with
  | nil =>
    intro acc m sp h
    refine ⟨fun r hr => absurd hr (List.not_mem_nil r), ?_⟩
    intro m0 sp0 h0
    rw [List.foldl_nil] at h
    rw [h0] at h
    cases h
    exact le_refl m
  | cons r rest ih =>
    intro acc m sp h
    rw [List.foldl_cons] at h
    obtain ⟨hrest, hacc'⟩ := ih (maxStep acc r) m sp h
    constructor
    · intro r' hr' i hi
      rcases List.mem_cons.mp hr' with rfl | hmem
      · obtain ⟨m1, sp1, hstep⟩ := maxStep_isSome_of_id acc r' i hi
        exact le_trans ((maxStep_le acc r' m1 sp1 hstep).2 i hi)
          (hacc' m1 sp1 hstep)
      · exact hrest r' hmem i hi
    · intro m0 sp0 h0
      cases hid : r.id with
      | none =>
        apply hacc' m0 sp0
        rw [maxStep_none_id acc r hid]
        exact h0
      | some i =>
        obtain ⟨m1, sp1, hstep⟩ := maxStep_isSome_of_id acc r i hid
        exact le_trans ((maxStep_le acc r m1 sp1 hstep).1 m0 sp0 h0)
          (hacc' m1 sp1 hstep)

theorem foldl_maxStep_mem :
    ∀ (s : List Row) (acc : Option (Int × Int)) (m sp : Int),
    s.foldl maxStep acc = some (m, sp) →
    acc = some (m, sp) ∨ ∃ r ∈ s, r.id = some m ∧ r.num_tickets = sp := by
  intro s
  induction s with
  | nil =>
    intro acc m sp h
    rw [List.foldl_nil] at h
    exact Or.inl h
  | cons r rest ih =>
    intro acc m sp h
    rw [List.foldl_cons] at h
    rcases ih (maxStep acc r) m sp h with hstep | ⟨r', hr', h1, h2⟩
    · rcases maxStep_some_inv acc r m sp hstep with hacc | ⟨hid, hsp⟩
      · exact Or.inl hacc
      · exact Or.inr ⟨r, List.mem_cons_self r rest, hid, hsp⟩
    · exact Or.inr ⟨r', List.mem_cons_of_mem r hr', h1, h2⟩

/-- C1.  For the allocate-and-assign workflow: with no assigned row the
computed start id is the configured starting id; otherwise it is the id of
the row holding the maximum assigned id plus that row's own ticket count.
The scenario conjuncts run the workflow itself: from an empty store with
starting id 1, order A with three tickets is allocated id 1, and order B
with two tickets is then allocated id 4. -/
theorem C1_allocator (startingId : Int) (s : List Row) :
    ((∀ r ∈ s, r.id = none) → compute_start_id startingId s = startingId)
    ∧ (∀ m sp : Int, get_max_id_and_span s = some (m, sp) →
        (∃ r ∈ s, r.id = some m ∧ r.num_tickets = sp)
        ∧ (∀ r ∈ s, ∀ i : Int, r.id = some i → i ≤ m)
        ∧ compute_start_id startingId s = m + sp)
    ∧ (send_and_assign true 1 [orderA] "2025-09-01 00:00:00" "Ames").2 = some 1
    ∧ (send_and_assign true 1 [orderA] "2025-09-01 00:00:00" "Ames").1
        = [orderA1]
    ∧ (send_and_assign true 1 [orderA1, orderB] "2025-09-03 00:00:00"
        "Bell").2 = some 4 := by
  refine ⟨?_, ?_, by decide, by decide, by decide⟩
  · intro h
    rw [compute_start_id, get_max_id_and_span, foldl_maxStep_of_all_none s none h]
  · intro m sp h
    have hmem := foldl_maxStep_mem s none m sp h
    have hmax := foldl_maxStep_max s none m sp h
    refine ⟨?_, hmax.1, ?_⟩
    · rcases hmem with h0 | h0
      · cases h0
      · exact h0
    · unfold compute_start_id
      rw [h]
      show m + pyOrInt sp 0 = m + sp
      unfold pyOrInt
      by_cases hsp : sp = 0
      · rw [if_pos hsp, hsp]
      · rw [if_neg hsp]

/-- Witness for C1 at concrete stores. -/
theorem C1_allocator_witness :
    compute_start_id 7 [] = 7 ∧ compute_start_id 1 [maxRow, orderA] = 15 := by
  constructor
  · exact (C1_allocator 7 []).1 (by intro r hr; cases hr)
  · have h := ((C1_allocator 1 [maxRow, orderA]).2.1 10 5 (by decide))
    exact h.2.2

/-- C2.  In the send-and-assign sequence, the id is assigned only after the
notification succeeds: a failing notifier leaves the store exactly as it
was and assigns nothing, a retry computes the same start id as the failed
attempt did, retrying after a failure ends in the very state an undisturbed
first attempt would have produced, and a successful attempt assigns exactly
the computed start id. -/
theorem C2_notify_then_assign (startingId : Int) (s : List Row)
    (date name : String) :
    (send_and_assign false startingId s date name) = (s, none)
    ∧ compute_start_id startingId
        (send_and_assign false startingId s date name).1
        = compute_start_id startingId s
    ∧ send_and_assign true startingId
        (send_and_assign false startingId s date name).1 date name
        = send_and_assign true startingId s date name
    ∧ (send_and_assign true startingId s date name).1
        = assign_id_for_row s date name (compute_start_id startingId s) := by
  refine ⟨rfl, rfl, rfl, rfl⟩

/-- C9.  delete_order_by_name_date removes exactly the rows matching the
given natural key, with no guard on the assigned id: membership in the
result is membership in the store plus a mismatching key, and the concrete
conjunct deletes a row that holds the assigned id 5 just the same. -/
theorem C9_delete_unconditional :
    (∀ (s : List Row) (date name : String) (r : Row),
      r ∈ delete_order_by_name_date s date name ↔
        r ∈ s ∧ ¬(r.name = name ∧ r.date = date))
    ∧ delete_order_by_name_date [assignedVictim, orderB]
        "2025-09-01 00:00:00" "Vale" = [orderB]
    ∧ assignedVictim.id = some 5 := by
  refine ⟨?_, by decide, by decide⟩
  intro s date name r
  rw [delete_order_by_name_date, List.mem_filter]
  constructor
  · rintro ⟨hmem, hp⟩
    refine ⟨hmem, ?_⟩
    rintro ⟨hn, hd⟩
    rw [hn, hd] at hp
    simp at hp
  · rintro ⟨hmem, hp⟩
    refine ⟨hmem, ?_⟩
    by_cases hn : r.name = name
    · by_cases hd : r.date = date
      · exact absurd ⟨hn, hd⟩ hp
      · simp [hn, hd]
    · simp [hn]

/-! Lemmas about insert_tickets. -/

theorem isDupMsg_dupKeyMsg : isDupMsg dupKeyMsg = true := by decide

theorem insert_tickets_dup (s : List Row) (r : Row)
    (rest : List (Row × Option String)) (h : hasKey s r.name r.date = true) :
    insert_tickets s ((r, none) :: rest) = insert_tickets s rest := by
  rw [insert_tickets]
  unfold execInsert
  rw [if_pos h]
  show (if isDupMsg dupKeyMsg then insert_tickets s rest else Except.error dupKeyMsg)
    = insert_tickets s rest
  rw [if_pos isDupMsg_dupKeyMsg]

theorem insert_tickets_fresh (s : List Row) (r : Row)
    (rest : List (Row × Option String)) (h : hasKey s r.name r.date = false) :
    insert_tickets s ((r, none) :: rest)
      = match insert_tickets (s ++ [r]) rest with
        | Except.ok (s'', n) => Except.ok (s'', n + 1)
        | Except.error e => Except.error e := by
  rw [insert_tickets]
  unfold execInsert
  rw [if_neg (by rw [h]; exact Bool.false_ne_true)]

theorem insert_tickets_noFault :
    ∀ (rows : List Row) (s : List Row),
    insert_tickets s (rows.map (fun r => (r, none)))
      = Except.ok (s ++ newlyInserted s rows, (newlyInserted s rows).length) := by
  intro rows
  induction rows with
  | nil =>
    intro s
    rw [List.map_nil, insert_tickets, newlyInserted]
    rw [List.append_nil, List.length_nil]
  | cons r rest ih =>
    intro s
    rw [List.map_cons]
    cases h : hasKey s r.name r.date with
    | true =>
      rw [insert_tickets_dup s r _ h, ih s, newlyInserted, if_pos h]
    | false =>
      rw [insert_tickets_fresh s r _ h, ih (s ++ [r]), newlyInserted,
        if_neg (by rw [h]; exact Bool.false_ne_true)]
      rw [List.length_cons, List.append_assoc, List.singleton_append]

theorem hasKey_append_left (s l : List Row) (n d : String)
    (h : hasKey s n d = true) : hasKey (s ++ l) n d = true := by
  rw [hasKey, List.any_append]
  rw [hasKey] at h
  rw [h, Bool.true_or]

theorem hasKey_self (s : List Row) (r : Row) (h : r ∈ s) :
    hasKey s r.name r.date = true := by
  rw [hasKey, List.any_eq_true]
  exact ⟨r, h, by simp⟩

theorem keys_present :
    ∀ (rows : List Row) (s : List Row) (r : Row), r ∈ rows →
    hasKey (s ++ newlyInserted s rows) r.name r.date = true := by
  intro rows
  induction rows with
  | nil =>
    intro s r h
    exact absurd h (List.not_mem_nil r)
  | cons r0 rest ih =>
    intro s r h
    rw [newlyInserted]
    by_cases h0 : hasKey s r0.name r0.date = true
    · rw [if_pos h0]
      rcases List.mem_cons.mp h with rfl | hmem
      · exact hasKey_append_left s _ r.name r.date h0
      · exact ih s r hmem
    · rw [if_neg h0]
      have hsplit : s ++ r0 :: newlyInserted (s ++ [r0]) rest
          = (s ++ [r0]) ++ newlyInserted (s ++ [r0]) rest := by
        rw [List.append_assoc, List.singleton_append]
      rw [hsplit]
      rcases List.mem_cons.mp h with rfl | hmem
      · exact hasKey_append_left (s ++ [r]) _ r.name r.date
          (hasKey_self _ r (List.mem_append_right s (List.mem_singleton_self r)))
      · exact ih (s ++ [r0]) r hmem

theorem newlyInserted_nil_of_present :
    ∀ (rows : List Row) (s : List Row),
    (∀ r ∈ rows, hasKey s r.name r.date = true) →
    newlyInserted s rows = [] := by
  intro rows
  induction rows with
  | nil => intro s _; rfl
  | cons r0 rest ih =>
    intro s h
    rw [newlyInserted, if_pos (h r0 (List.mem_cons_self r0 rest))]
    exact ih s (fun r hr => h r (List.mem_cons_of_mem r0 hr))

/-- C3.  insert_tickets over a batch: with no environmental fault the whole
batch runs to completion with the returned count equal to the number of
rows actually newly persisted (and the store extended by exactly those
rows); a uniqueness violation is swallowed, leaving count and store exactly
as if the duplicate row had not been in the batch; and a raised error whose
message is not a duplicate-key message aborts the batch by re-raising. -/
theorem C3_insert_batch :
    (∀ (s : List Row) (rows : List Row),
      insert_tickets s (rows.map (fun r => (r, none)))
        = Except.ok (s ++ newlyInserted s rows, (newlyInserted s rows).length))
    ∧ (∀ (s : List Row) (r : Row) (rest : List (Row × Option String)),
      hasKey s r.name r.date = true →
      insert_tickets s ((r, none) :: rest) = insert_tickets s rest)
    ∧ (∀ (s : List Row) (r : Row) (rest : List (Row × Option String))
        (msg : String),
      isDupMsg msg = false →
      insert_tickets s ((r, some msg) :: rest) = Except.error msg) := by
  refine ⟨fun s rows => insert_tickets_noFault rows s, insert_tickets_dup, ?_⟩
  intro s r rest msg h
  rw [insert_tickets]
  unfold execInsert
  show (if isDupMsg msg then insert_tickets s rest else Except.error msg)
    = Except.error msg
  rw [if_neg (by rw [h]; exact Bool.false_ne_true)]

/-- Witness for C3: a duplicate of the only stored row is swallowed with
count 0 and an unchanged store, and a connectivity error is re-raised. -/
theorem C3_insert_batch_witness :
    insert_tickets [orderA] [(orderA, none)] = Except.ok ([orderA], 0)
    ∧ insert_tickets [] [(orderA, some "connection refused")]
        = Except.error "connection refused" := by
  constructor
  · exact (C3_insert_batch.2.1 [orderA] orderA [] (by decide)).trans rfl
  · exact C3_insert_batch.2.2 [] orderA [] "connection refused" (by decide)

/-- C4.  Importing the same source file twice is idempotent: when the
first import of a file ends in store s1 reporting n1 new rows, importing
the same file again from s1 returns the very same store and reports 0
newly inserted rows. -/
theorem C4_idempotent_import (isCsv : Bool) (a1 a2 : String)
    (minDate : Option String) (file : List (List String)) (s s1 : List Row)
    (n1 : Nat)
    (h : ingest_uploaded_file isCsv a1 a2 minDate s file = Except.ok (s1, n1)) :
    ingest_uploaded_file isCsv a1 a2 minDate s1 file = Except.ok (s1, 0) := by
  cases hp : parse_file isCsv a1 a2 minDate file with
  | error e =>
    have hh : ingest_uploaded_file isCsv a1 a2 minDate s file
        = Except.error e := by
      unfold ingest_uploaded_file
      rw [hp]
    rw [hh] at h
    exact Except.noConfusion h
  | ok rows =>
    have hh : ∀ s0 : List Row, ingest_uploaded_file isCsv a1 a2 minDate s0 file
        = insert_tickets s0 (rows.map (fun r => (r, none))) := by
      intro s0
      unfold ingest_uploaded_file
      rw [hp]
    rw [hh s, insert_tickets_noFault rows s] at h
    have hs1 : s1 = s ++ newlyInserted s rows := by
      cases h; rfl
    have hkeys : ∀ r ∈ rows, hasKey s1 r.name r.date = true := by
      intro r hr
      rw [hs1]
      exact keys_present rows s r hr
    rw [hh s1, insert_tickets_noFault rows s1,
      newlyInserted_nil_of_present rows s1 hkeys]
    rw [List.append_nil, List.length_nil]

/-- Witness for C4: importing the two-line terse-dialect CSV into the empty
store inserts the one parsed order; importing it again inserts nothing and
leaves the store as it was. -/
theorem C4_idempotent_import_witness :
    ingest_uploaded_file true "A1" "Tikkie tombola only!" none [] csvFile2
      = Except.ok ([aliceRow], 1)
    ∧ ingest_uploaded_file true "A1" "Tikkie tombola only!" none [aliceRow]
        csvFile2 = Except.ok ([aliceRow], 0) := by
  have h1 : ingest_uploaded_file true "A1" "Tikkie tombola only!" none []
      csvFile2 = Except.ok ([aliceRow], 1) := by rfl
  exact ⟨h1,
    C4_idempotent_import true "A1" "Tikkie tombola only!" none csvFile2 []
      [aliceRow] 1 h1⟩

/-- Inversion of an emitted parse_row: the emitted order carries the value of
the first digit run of the variant text as its ticket count and the
per-dialect name construction. -/
theorem parse_row_some_inv (ft : FileType) (u : UnifiedRow) (row : Row)
    (h : parse_row ft u = Except.ok (some row)) :
    ∃ n : Nat, searchDigits (pyStr u.declinaison) = some n
      ∧ row.num_tickets = (n : Int)
      ∧ row.name = unified_name ft u := by
  unfold parse_row at h
  cases hsd : searchDigits (pyStr u.declinaison) with
  | none =>
    rw [hsd] at h
    simp at h
  | some n =>
    rw [hsd] at h
    cases hd : u.date with
    | none =>
      rw [hd] at h
      simp at h
    | some d =>
      rw [hd] at h
      have h' : (Except.ok (some
          ({ id := none, date := d,
             firm := if pyStrip (pyStr u.firm) = "" then none
                     else some (pyStrip (pyStr u.firm)),
             name := unified_name ft u,
             email := pyStrip (pyStr u.email),
             num_tickets := (n : Int), achat := none } : Row)) :
            Except String (Option Row)) = Except.ok (some row) := h
      injection h' with h2
      injection h2 with h3
      subst h3
      exact ⟨n, rfl, rfl, rfl⟩

/-- C7.  Digit extraction from the variant text: the pack-of-twelve example
parses to twelve; a row whose variant text has no digit run is skipped by
the emission loop with no error and no emitted order; every emitted order
carries exactly the value of the first digit run of its variant text. -/
theorem C7_digit_extraction :
    searchDigits "Pack de 12 billets" = some 12
    ∧ (∀ (ft : FileType) (r : UnifiedRow),
        searchDigits (pyStr r.declinaison) = none →
        parse_row ft r = Except.ok none)
    ∧ (∀ (ft : FileType) (r : UnifiedRow) (rest : List UnifiedRow),
        searchDigits (pyStr r.declinaison) = none →
        parse_rows_go ft (r :: rest) = parse_rows_go ft rest)
    ∧ (∀ (ft : FileType) (r : UnifiedRow) (row : Row),
        parse_row ft r = Except.ok (some row) →
        ∃ n : Nat, searchDigits (pyStr r.declinaison) = some n
          ∧ row.num_tickets = (n : Int)) := by
  refine ⟨by decide, ?_, ?_, ?_⟩
  · intro ft r h
    unfold parse_row
    rw [h]
  · intro ft r rest h
    rw [parse_rows_go]
    have hr : parse_row ft r = Except.ok none := by
      unfold parse_row
      rw [h]
    rw [hr]
  · intro ft r row h
    obtain ⟨n, hsd, hnum, _⟩ := parse_row_some_inv ft r row h
    exact ⟨n, hsd, hnum⟩

/-- Witness for C7 at concrete rows: the digit-free row is skipped both by
parse_row and by the emission loop, and the emitted pack-of-twelve row
carries ticket count 12. -/
theorem C7_digit_extraction_witness :
    parse_row FileType.type1 noDigitRow = Except.ok none
    ∧ parse_rows_go FileType.type1 [noDigitRow]
        = parse_rows_go FileType.type1 []
    ∧ ∃ n : Nat, searchDigits (pyStr uTwelve.declinaison) = some n
        ∧ twelveRow.num_tickets = (n : Int) := by
  refine ⟨?_, ?_, ?_⟩
  · exact C7_digit_extraction.2.1 FileType.type1 noDigitRow (by decide)
  · exact C7_digit_extraction.2.2.1 FileType.type1 noDigitRow [] (by decide)
  · exact C7_digit_extraction.2.2.2 FileType.type1 uTwelve twelveRow (by rfl)

/-- C8 counterexample.  The parser emits a zero-ticket order from a variant
text whose first digit run has value zero, and that order is accepted into
the store by the batch insert: an order with ticket count below one enters
the store. -/
theorem C8_cex_zero_ticket_order :
    parse_row FileType.type1 uZero = Except.ok (some zeroRow)
    ∧ insert_tickets [] [(zeroRow, none)] = Except.ok ([zeroRow], 1)
    ∧ ¬(1 ≤ zeroRow.num_tickets) := by
  refine ⟨by rfl, by rfl, by decide⟩

/-- C8 as amended.  Orders created through the staff form have ticket count
at least one (the form widget enforces a minimum of one on its numeric
input); parser-produced orders are guaranteed only a nonnegative ticket
count, namely the value of the first digit run of the variant text, which
is zero when that run denotes zero. -/
theorem C8_ticket_count_bounds :
    (∀ (dateStr name email firm achat : String) (t : Int), 1 ≤ t →
      ∀ r : Row, add_order_manual dateStr name email firm achat t = some r →
      1 ≤ r.num_tickets)
    ∧ (∀ (ft : FileType) (u : UnifiedRow) (r : Row),
        parse_row ft u = Except.ok (some r) → 0 ≤ r.num_tickets) := by
  constructor
  · intro dateStr name email firm achat t ht r h
    unfold add_order_manual at h
    split at h
    · exact Option.noConfusion h
    · cases h
      exact ht
  · intro ft u r h
    obtain ⟨n, _, hnum, _⟩ := parse_row_some_inv ft u r h
    rw [hnum]
    exact Int.natCast_nonneg n

/-- Witness for C8 as amended: a manual order with one ticket has count at
least one, and the parsed zero-ticket order still has a nonnegative
count. -/
theorem C8_ticket_count_bounds_witness :
    (∃ r : Row, add_order_manual "2025-09-01 00:00:00" "John" "j@x.org" "" "" 1
        = some r ∧ 1 ≤ r.num_tickets)
    ∧ 0 ≤ zeroRow.num_tickets := by
  constructor
  · refine ⟨johnRow, by rfl, ?_⟩
    exact C8_ticket_count_bounds.1 "2025-09-01 00:00:00" "John" "j@x.org" ""
      "" 1 (by decide) johnRow (by rfl)
  · exact C8_ticket_count_bounds.2 FileType.type1 uZero zeroRow (by rfl)

/-- C10.  The type2 column wiring: the canonical email field is the cell of
the source column named Message, the firm field the cell of the column
named E-mail, the variant text the cell of the column named Company, the
last_name field the cell of the column named Nom, and first_name is always
absent; consequently an emitted type2 order's customer name is just the
stripped Nom cell. -/
theorem C10_type2_mapping :
    (∀ cells : List String,
      (create_unified_row FileType.type2 cells).email
          = cells[type2_assigned_columns.indexOf "Message"]?
      ∧ (create_unified_row FileType.type2 cells).firm
          = cells[type2_assigned_columns.indexOf "E-mail"]?
      ∧ (create_unified_row FileType.type2 cells).declinaison
          = cells[type2_assigned_columns.indexOf "Company"]?
      ∧ (create_unified_row FileType.type2 cells).last_name
          = cells[type2_assigned_columns.indexOf "Nom"]?
      ∧ (create_unified_row FileType.type2 cells).first_name = none)
    ∧ (∀ (u : UnifiedRow) (r : Row),
        parse_row FileType.type2 u = Except.ok (some r) →
        r.name = pyStrip (pyStr u.last_name)) := by
  constructor
  · intro cells
    refine ⟨?_, ?_, ?_, ?_, rfl⟩ <;> rfl
  · intro u r h
    obtain ⟨n, _, _, hname⟩ := parse_row_some_inv FileType.type2 u r h
    exact hname.trans rfl

/-- Witness for C10: the concrete terse-dialect data line wires FirmX into
the firm field through the column named E-mail and the address into email
through the column named Message, and the parsed order's name is the
stripped Nom cell. -/
theorem C10_type2_mapping_witness :
    (create_unified_row FileType.type2
        ["2025-09-02 10:00:00", "Tikkie tombola only!", "Alice", "FirmX",
         "a@b.c", "Pack de 2"]).email = some "a@b.c"
    ∧ (create_unified_row FileType.type2
        ["2025-09-02 10:00:00", "Tikkie tombola only!", "Alice", "FirmX",
         "a@b.c", "Pack de 2"]).firm = some "FirmX"
    ∧ aliceRow.name = pyStrip (pyStr (create_unified_row FileType.type2
        ["2025-09-02 10:00:00", "Tikkie tombola only!", "Alice", "FirmX",
         "a@b.c", "Pack de 2"]).last_name) := by
  refine ⟨?_, ?_, ?_⟩
  · exact ((C10_type2_mapping.1 _).1).trans (by rfl)
  · exact ((C10_type2_mapping.1 _).2.1).trans (by rfl)
  · exact C10_type2_mapping.2
      (create_unified_row FileType.type2
        ["2025-09-02 10:00:00", "Tikkie tombola only!", "Alice", "FirmX",
         "a@b.c", "Pack de 2"]) aliceRow (by rfl)

/-! Lemmas about header detection. -/

theorem detectHeaderAux_some_spec :
    ∀ (l : List (List String)) (j i : Nat) (ft : FileType),
    detectHeaderAux j l = some (i, ft) →
    ∃ k, k < l.length ∧ i = j + k
      ∧ (∀ row, l[k]? = some row →
          ((ft = FileType.type1 ∧ 4 ≤ countMatches type1_columns (rowText row))
           ∨ (ft = FileType.type2
              ∧ countMatches type1_columns (rowText row) < 4
              ∧ 3 ≤ countMatches type2_columns (rowText row))))
      ∧ (∀ k' row, k' < k → l[k']? = some row →
          countMatches type1_columns (rowText row) < 4
          ∧ countMatches type2_columns (rowText row) < 3) := by
  intro l
  induction l with
  | nil =>
    intro j i ft h
    exact Option.noConfusion h
  | cons row rest ih =>
    intro j i ft h
    rw [detectHeaderAux] at h
    by_cases h1 : 4 ≤ countMatches type1_columns (rowText row)
    · rw [if_pos h1] at h
      cases h
      refine ⟨0, Nat.succ_pos _, (Nat.add_zero j).symm, ?_, ?_⟩
      · intro row' hrow
        rw [List.getElem?_cons_zero] at hrow
        cases hrow
        exact Or.inl ⟨rfl, h1⟩
      · intro k' row' hk' _
        exact absurd hk' (Nat.not_lt_zero k')
    · rw [if_neg h1] at h
      by_cases h2 : 3 ≤ countMatches type2_columns (rowText row)
      · rw [if_pos h2] at h
        cases h
        refine ⟨0, Nat.succ_pos _, (Nat.add_zero j).symm, ?_, ?_⟩
        · intro row' hrow
          rw [List.getElem?_cons_zero] at hrow
          cases hrow
          exact Or.inr ⟨rfl, Nat.lt_of_not_le h1, h2⟩
        · intro k' row' hk' _
          exact absurd hk' (Nat.not_lt_zero k')
      · rw [if_neg h2] at h
        obtain ⟨k, hk, hi, hsel, hprior⟩ := ih (j + 1) i ft h
        refine ⟨k + 1, Nat.succ_lt_succ hk, by omega, ?_, ?_⟩
        · intro row' hrow
          rw [List.getElem?_cons_succ] at hrow
          exact hsel row' hrow
        · intro k' row' hk' hrow
          cases k' with
          | zero =>
            rw [List.getElem?_cons_zero] at hrow
            cases hrow
            exact ⟨Nat.lt_of_not_le h1, Nat.lt_of_not_le h2⟩
          | succ k'' =>
            rw [List.getElem?_cons_succ] at hrow
            exact hprior k'' row' (Nat.lt_of_succ_lt_succ hk') hrow

theorem detectHeaderAux_none_spec :
    ∀ (l : List (List String)) (j : Nat),
    detectHeaderAux j l = none →
    ∀ (k : Nat) (row : List String), l[k]? = some row →
      countMatches type1_columns (rowText row) < 4
      ∧ countMatches type2_columns (rowText row) < 3 := by
  intro l
  induction l with
  | nil =>
    intro j _ k row hrow
    rw [List.getElem?_nil] at hrow
    exact Option.noConfusion hrow
  | cons row0 rest ih =>
    intro j h k row hrow
    rw [detectHeaderAux] at h
    by_cases h1 : 4 ≤ countMatches type1_columns (rowText row0)
    · rw [if_pos h1] at h
      exact Option.noConfusion h
    · rw [if_neg h1] at h
      by_cases h2 : 3 ≤ countMatches type2_columns (rowText row0)
      · rw [if_pos h2] at h
        exact Option.noConfusion h
      · rw [if_neg h2] at h
        cases k with
        | zero =>
          rw [List.getElem?_cons_zero] at hrow
          cases hrow
          exact ⟨Nat.lt_of_not_le h1, Nat.lt_of_not_le h2⟩
        | succ k' =>
          rw [List.getElem?_cons_succ] at hrow
          exact ih (j + 1) h k' row hrow

theorem detectHeader_some_spec (rows : List (List String)) (i : Nat)
    (ft : FileType) (h : detectHeader rows = some (i, ft)) :
    i < 10 ∧ i < rows.length
    ∧ (∀ row, rows[i]? = some row →
        ((ft = FileType.type1 ∧ 4 ≤ countMatches type1_columns (rowText row))
         ∨ (ft = FileType.type2
            ∧ countMatches type1_columns (rowText row) < 4
            ∧ 3 ≤ countMatches type2_columns (rowText row))))
    ∧ (∀ j row, j < i → rows[j]? = some row →
        countMatches type1_columns (rowText row) < 4
        ∧ countMatches type2_columns (rowText row) < 3) := by
  rw [detectHeader] at h
  obtain ⟨k, hk, hi, hsel, hprior⟩ :=
    detectHeaderAux_some_spec (rows.take 10) 0 i ft h
  have hik : i = k := by omega
  subst hik
  rw [List.length_take] at hk
  have hk10 : i < 10 := lt_of_lt_of_le hk (min_le_left _ _)
  have hklen : i < rows.length := lt_of_lt_of_le hk (min_le_right _ _)
  refine ⟨hk10, hklen, ?_, ?_⟩
  · intro row hrow
    apply hsel row
    rw [List.getElem?_take, if_pos hk10]
    exact hrow
  · intro j row hj hrow
    apply hprior j row hj
    rw [List.getElem?_take, if_pos (by omega)]
    exact hrow

theorem detectHeader_none_spec (rows : List (List String))
    (h : detectHeader rows = none) :
    ∀ (j : Nat) (row : List String), j < 10 → rows[j]? = some row →
      countMatches type1_columns (rowText row) < 4
      ∧ countMatches type2_columns (rowText row) < 3 := by
  rw [detectHeader] at h
  intro j row hj hrow
  apply detectHeaderAux_none_spec (rows.take 10) 0 h j row
  rw [List.getElem?_take, if_pos hj]
  exact hrow

theorem list_take_getElem_drop {α : Type} (l : List α) (i : Nat)
    (hi : i < l.length) :
    l = l.take i ++ l[i] :: l.drop (i + 1) := by
  conv_lhs => rw [← List.take_append_drop i l]
  rw [List.drop_eq_getElem_cons hi]

/-- C5, as it holds on the code.  When a header row is detected at scan
index i: for an Excel source the re-read with the discovered offset keeps
the detected row itself as the column-name row, the scanned rows before it
are skipped, and the data rows are exactly the scanned rows strictly after
it, none lost and none consumed as a header; for a CSV source the re-read
(header=None) keeps no column-name row at all - the detected header row is
dropped together with everything before it - and the data rows are exactly
the file rows strictly after the header. -/
theorem C5_header_offset (file : List (List String)) (i : Nat)
    (ft : FileType) :
    (detectHeader (read_table true 0 file).dataRows = some (i, ft) →
      parse_file_table false file = (read_table true (i + 1) file, ft)
      ∧ (read_table true (i + 1) file).headerRow
          = (read_table true 0 file).dataRows[i]?
      ∧ (read_table true (i + 1) file).dataRows
          = (read_table true 0 file).dataRows.drop (i + 1)
      ∧ ∃ hrow, (read_table true 0 file).dataRows[i]? = some hrow
          ∧ (read_table true 0 file).dataRows
            = (read_table true 0 file).dataRows.take i
              ++ hrow :: (read_table true (i + 1) file).dataRows)
    ∧ (detectHeader (read_table false 0 file).dataRows = some (i, ft) →
      parse_file_table true file = (read_table false (i + 1) file, ft)
      ∧ (read_table false (i + 1) file).headerRow = none
      ∧ (read_table false (i + 1) file).dataRows = file.drop (i + 1)) := by
  have hdata0 : (read_table true 0 file).dataRows = file.drop 1 := by
    show (file.drop 0).tail = file.drop 1
    rw [List.drop_zero, ← List.drop_one]
  constructor
  · intro h
    have hft : parse_file_table false file
        = (read_table true (i + 1) file, ft) := by
      simp only [parse_file_table, Bool.not_false, h]
    have hhdr : (read_table true (i + 1) file).headerRow
        = (read_table true 0 file).dataRows[i]? := by
      show (file.drop (i + 1)).head? = (read_table true 0 file).dataRows[i]?
      rw [hdata0, List.head?_drop, List.getElem?_drop, Nat.add_comm 1 i]
    have hdata : (read_table true (i + 1) file).dataRows
        = (read_table true 0 file).dataRows.drop (i + 1) := by
      show (file.drop (i + 1)).tail
        = ((read_table true 0 file).dataRows).drop (i + 1)
      rw [hdata0, List.tail_drop, List.drop_drop, Nat.add_comm (i + 1) 1]
    refine ⟨hft, hhdr, hdata, ?_⟩
    have hlen : i < (read_table true 0 file).dataRows.length :=
      (detectHeader_some_spec _ i ft h).2.1
    refine ⟨(read_table true 0 file).dataRows[i], ?_, ?_⟩
    · exact List.getElem?_eq_getElem hlen
    · rw [hdata]
      exact list_take_getElem_drop _ i hlen
  · intro h
    have hdatac : (read_table false 0 file).dataRows = file := by
      show file.drop 0 = file
      exact List.drop_zero file
    refine ⟨?_, rfl, ?_⟩
    · simp only [parse_file_table, Bool.not_true, h]
    · show file.drop (i + 1) = file.drop (i + 1)
      rfl

/-- Witness for C5: the junk-then-header Excel file re-reads with the
detected verbose header kept as the column-name row, and the terse CSV file
re-reads with no column-name row. -/
theorem C5_header_offset_witness :
    parse_file_table false xlsxFile1
      = (read_table true 1 xlsxFile1, FileType.type1)
    ∧ (read_table true 1 xlsxFile1).headerRow
        = (read_table true 0 xlsxFile1).dataRows[0]?
    ∧ parse_file_table true csvFile2
        = (read_table false 1 csvFile2, FileType.type2)
    ∧ (read_table false 1 csvFile2).headerRow = none := by
  have h1 := (C5_header_offset xlsxFile1 0 FileType.type1).1 (by decide)
  have h2 := (C5_header_offset csvFile2 0 FileType.type2).2 (by decide)
  exact ⟨h1.1, h1.2.1, h2.1, h2.2.1⟩

/-- C5 counterexample.  On the CSV path the claim fails: the header of the
two-row terse CSV source is detected at index 0, yet the re-read keeps no
column-name row - the kept column-name row is not the detected header row,
which has been skipped along with the rows before it. -/
theorem C5_cex_csv_header_dropped :
    detectHeader (read_table false 0 csvFile2).dataRows
      = some (0, FileType.type2)
    ∧ (parse_file_table true csvFile2).1.headerRow = none
    ∧ (read_table false 0 csvFile2).dataRows[0]?
        = some ["date", "page", "nom", "e-mail", "message", "company"]
    ∧ (parse_file_table true csvFile2).1.headerRow
        ≠ (read_table false 0 csvFile2).dataRows[0]? := by
  refine ⟨by decide, by rfl, by rfl, by decide⟩

/-- C6, as it holds on the code.  Detection scans at most the first 10 rows
in order; a hit at index i means every earlier row crossed neither
threshold and the row at i selected type1 when at least 4 of its 5 names
occur, and only otherwise type2 when at least 3 of its 6 names occur; a
miss means no row among the first 10 crossed either threshold, and then the
parse does not fail but defaults to type1 - for an Excel source the first
read stands, whose column-name row is file row 0; for a CSV source the
first read equally stands, but it has no column-name row and keeps every
file row as data. -/
theorem C6_detection (rows : List (List String)) :
    detectHeader rows = detectHeader (rows.take 10)
    ∧ (∀ (i : Nat) (ft : FileType), detectHeader rows = some (i, ft) →
        i < 10 ∧ i < rows.length
        ∧ (∀ row, rows[i]? = some row →
            ((ft = FileType.type1
              ∧ 4 ≤ countMatches type1_columns (rowText row))
             ∨ (ft = FileType.type2
                ∧ countMatches type1_columns (rowText row) < 4
                ∧ 3 ≤ countMatches type2_columns (rowText row))))
        ∧ (∀ j row, j < i → rows[j]? = some row →
            countMatches type1_columns (rowText row) < 4
            ∧ countMatches type2_columns (rowText row) < 3))
    ∧ (detectHeader rows = none →
        ∀ (j : Nat) (row : List String), j < 10 → rows[j]? = some row →
          countMatches type1_columns (rowText row) < 4
          ∧ countMatches type2_columns (rowText row) < 3)
    ∧ (∀ file : List (List String),
        detectHeader (read_table true 0 file).dataRows = none →
        parse_file_table false file = (read_table true 0 file, FileType.type1)
        ∧ (read_table true 0 file).headerRow = file[0]?)
    ∧ (∀ file : List (List String),
        detectHeader (read_table false 0 file).dataRows = none →
        parse_file_table true file
          = (read_table false 0 file, FileType.type1)
        ∧ (read_table false 0 file).headerRow = none
        ∧ (read_table false 0 file).dataRows = file) := by
  refine ⟨?_, ?_, detectHeader_none_spec rows, ?_, ?_⟩
  · rw [detectHeader, detectHeader, List.take_take, Nat.min_self]
  · intro i ft h
    exact detectHeader_some_spec rows i ft h
  · intro file h
    constructor
    · simp only [parse_file_table, Bool.not_false, h]
    · show (file.drop 0).head? = file[0]?
      rw [List.drop_zero, ← List.head?_eq_getElem?]
  · intro file h
    refine ⟨?_, rfl, List.drop_zero file⟩
    simp only [parse_file_table, Bool.not_true, h]

/-- Witness for C6 at concrete sources: the terse header is detected at
index 0 of the CSV scan with its thresholds, and the no-match source falls
back to type1 with the first Excel read kept. -/
theorem C6_detection_witness :
    (0 : Nat) < 10
    ∧ (0 : Nat) < (read_table false 0 csvFile2).dataRows.length
    ∧ parse_file_table false csvNoHeader
        = (read_table true 0 csvNoHeader, FileType.type1)
    ∧ (read_table true 0 csvNoHeader).headerRow = csvNoHeader[0]? := by
  have h := (C6_detection (read_table false 0 csvFile2).dataRows).2.1 0
    FileType.type2 (by decide)
  have h2 := (C6_detection []).2.2.2.1 csvNoHeader (by decide)
  exact ⟨h.1, h.2.1, h2.1, h2.2⟩

/-- C6 counterexample.  On the CSV path the fallback does not assume the
header is row 0: when no row of the no-match CSV source crosses a
threshold, the table kept for parsing is not the header-at-row-0 read - it
has no column-name row and row 0 stays among the data rows. -/
theorem C6_cex_csv_fallback_keeps_row0 :
    detectHeader (read_table false 0 csvNoHeader).dataRows = none
    ∧ (parse_file_table true csvNoHeader).2 = FileType.type1
    ∧ (parse_file_table true csvNoHeader).1 ≠ read_table true 0 csvNoHeader
    ∧ (parse_file_table true csvNoHeader).1.headerRow = none
    ∧ (parse_file_table true csvNoHeader).1.dataRows = csvNoHeader := by
  refine ⟨by decide, by rfl, by decide, by rfl, by rfl⟩

end Raffle
